import Mathlib

set_option autoImplicit false

/-!
Verification of the Review Board web API resource layer
(reviewboard/webapi/resources.py) against its specification.

The Python code is shallowly embedded: database records become Lean
structures, querysets become lists, and the external collaborators
(ReviewRequest.publish, Review.publish, dateutil parsing, the close and
reopen transitions, the djblets framework fallbacks) become function
parameters, since their code lives outside the file under study.
Each resource operation is translated statement by statement from the
source; comments cite the Python lines being embedded.
-/

namespace ReviewBoard

/-! ## Python string primitives used by the resource code -/

/-- Python whitespace for str.strip and the regex class backslash-s. -/
def isPySpace (c : Char) : Bool :=
  c = ' ' || c = '\t' || c = '\n' || c = '\r' || c = '\x0b' || c = '\x0c'

/-- Python str.strip(): drop whitespace from both ends. -/
def pyStrip (s : String) : String :=
  String.mk (((s.data.dropWhile isPySpace).reverse.dropWhile isPySpace).reverse)

/-- Worker for re.split on a comma followed by optional whitespace; the
Bool records whether the scanner sits right after a separator and is
still consuming that separator's trailing whitespace. -/
def splitCommaWSAux : List Char → Bool → List Char → List String
  | [], _, acc => [String.mk acc.reverse]
  | c :: rest, skipping, acc =>
    if skipping && isPySpace c then splitCommaWSAux rest true acc
    else if c = ',' then String.mk acc.reverse :: splitCommaWSAux rest true []
    else splitCommaWSAux rest false (c :: acc)

/-- re.split with pattern comma-then-whitespace, as used on target_groups
and target_people payloads (resources.py line 2374). -/
def splitCommaWS (s : String) : List String :=
  splitCommaWSAux s.data false []

/-! ## The review request draft resource (ReviewRequestDraftResource) -/

/-- The persisted state of a ReviewRequestDraft that the resource can
touch: the scalar columns of the draft row, the text of its optional
ChangeDescription row (none when the draft has no change description),
and the two many-to-many reviewer sets, stored as id lists. -/
structure Draft where
  branch : String
  bugs_closed : String
  changedesc : Option String
  description : String
  public : Bool
  summary : String
  target_groups : List Nat
  target_people : List Nat
  testing_done : String
  deriving DecidableEq, Repr

/-- A value arriving through the webapi_request_fields decorator:
every draft field is declared str except public, declared bool. -/
inductive FieldVal where
  | str (s : String)
  | boolean (b : Bool)
  deriving DecidableEq, Repr

def FieldVal.asStr : FieldVal → String
  | .str s => s
  | .boolean b => if b then "True" else "False"

def FieldVal.asBool : FieldVal → Bool
  | .boolean b => b
  | .str s => s ≠ ""

/-- The mutable draft fields iterated by ReviewRequestDraftResource.update
(the fields dict entries without mutable: False). -/
inductive DraftField where
  | branch
  | bugs_closed
  | changedescription
  | description
  | publicFlag
  | summary
  | target_groups
  | target_people
  | testing_done
  deriving DecidableEq, Repr

def draftFieldName : DraftField → String
  | .branch => "branch"
  | .bugs_closed => "bugs_closed"
  | .changedescription => "changedescription"
  | .description => "description"
  | .publicFlag => "public"
  | .summary => "summary"
  | .target_groups => "target_groups"
  | .target_people => "target_people"
  | .testing_done => "testing_done"

/-- Django many-to-many add: inserting an already-present id is a no-op. -/
def m2mAdd (l : List Nat) (x : Nat) : List Nat :=
  if x ∈ l then l else l ++ [x]

/-- The per-value loop of _set_draft_field_data for target_groups and
target_people (resources.py lines 2374-2394): the set was cleared first,
empty values are skipped, resolvable values are added to the set and
unresolvable ones collected as invalid entries. -/
def targetLoop (resolve : String → Option Nat) (values : List String) :
    List Nat × List String :=
  values.foldl
    (fun st value =>
      if value = "" then st
      else
        match resolve value with
        | some obj => (m2mAdd st.1 obj, st.2)
        | none => (st.1, st.2 ++ [value]))
    ([], [])

/-- _sanitize_bug_ids (resources.py lines 2414-2429): split on commas,
strip whitespace, drop a leading hash mark, skip entries left empty by
the strip. -/
def sanitize_bug_ids (entries : String) : List String :=
  (entries.split (fun c => c = ',')).filterMap (fun bug0 =>
    let bug := pyStrip bug0
    if bug = "" then none
    else if bug.front = '#' then some (bug.drop 1)
    else some bug)

/-- _set_draft_field_data (resources.py lines 2351-2412).  rg resolves a
group name (Group.objects.get by name or display name), ru resolves a
username as _find_user does after stripping it; none models the lookup
failing.  Returns the draft state after the call together with the
invalid_entries list.  The target sets are many-to-many managers, so
their clear and add calls take effect immediately; the scalar setattr
writes are collected on the same record and become persistent only when
the caller saves (see draft_resource_update). -/
def set_draft_field_data (rg ru : String → Option Nat) (d : Draft) :
    DraftField → FieldVal → Draft × List String
  | .target_groups, v =>
    let res := targetLoop rg (splitCommaWS v.asStr)
    ({ d with target_groups := res.1 }, res.2)
  | .target_people, v =>
    let res := targetLoop (fun u => ru (pyStrip u)) (splitCommaWS v.asStr)
    ({ d with target_people := res.1 }, res.2)
  | .bugs_closed, v =>
    ({ d with bugs_closed := String.intercalate "," (sanitize_bug_ids v.asStr) }, [])
  | .changedescription, v =>
    match d.changedesc with
    | none =>
      (d, ["Change descriptions cannot be used for drafts of new review requests"])
    | some _ => ({ d with changedesc := some v.asStr }, [])
  | .summary, v =>
    if v.asStr.contains '\n' then (d, ["Summary cannot contain newlines"])
    else ({ d with summary := v.asStr }, [])
  | .branch, v => ({ d with branch := v.asStr }, [])
  | .description, v => ({ d with description := v.asStr }, [])
  | .publicFlag, v => ({ d with public := v.asBool }, [])
  | .testing_done, v => ({ d with testing_done := v.asStr }, [])

/-- The request payload for the draft create and update operations:
exactly the optional fields declared by the webapi_request_fields
decorator on them (resources.py lines 2154-2198 and 2214-2258). -/
structure DraftPayload where
  branch : Option String := none
  bugs_closed : Option String := none
  changedescription : Option String := none
  description : Option String := none
  public : Option Bool := none
  summary : Option String := none
  target_groups : Option String := none
  target_people : Option String := none
  testing_done : Option String := none
  deriving DecidableEq, Repr

/-- One iteration of the field loop in ReviewRequestDraftResource.update
(resources.py lines 2286-2296): skip absent fields, apply
_set_draft_field_data, and on a validation failure record the entries
under the field name. -/
def draftFieldStep (rg ru : String → Option Nat) (f : DraftField)
    (v : Option FieldVal) :
    Draft × List (String × List String) → Draft × List (String × List String)
  | (d, inv) =>
    match v with
    | none => (d, inv)
    | some data =>
      let r := set_draft_field_data rg ru d f data
      if r.2 = [] then (r.1, inv)
      else (r.1, inv ++ [(draftFieldName f, r.2)])

/-- The whole field loop of ReviewRequestDraftResource.update.  The Python
loop iterates a dict in unspecified order; the fields write to pairwise
distinct attributes, so the order is immaterial and the declaration order
of the fields dict is used here. -/
def draftFieldsLoop (rg ru : String → Option Nat) (p : DraftPayload)
    (d : Draft) : Draft × List (String × List String) :=
  let st := (d, ([] : List (String × List String)))
  let st := draftFieldStep rg ru .branch (p.branch.map FieldVal.str) st
  let st := draftFieldStep rg ru .bugs_closed (p.bugs_closed.map FieldVal.str) st
  let st := draftFieldStep rg ru .changedescription
    (p.changedescription.map FieldVal.str) st
  let st := draftFieldStep rg ru .description (p.description.map FieldVal.str) st
  let st := draftFieldStep rg ru .publicFlag (p.public.map FieldVal.boolean) st
  let st := draftFieldStep rg ru .summary (p.summary.map FieldVal.str) st
  let st := draftFieldStep rg ru .target_groups
    (p.target_groups.map FieldVal.str) st
  let st := draftFieldStep rg ru .target_people
    (p.target_people.map FieldVal.str) st
  draftFieldStep rg ru .testing_done (p.testing_done.map FieldVal.str) st

/-- Outcome of a draft resource call, mirroring the returns of
ReviewRequestDraftResource.update: a numeric status with the draft body,
the 303 publish redirect, or one of the error objects. -/
inductive DraftOutcome where
  | ok (code : Nat) (draft : Draft)
  | seeOther
  | invalidFormData (fields : List (String × List String))
  | doesNotExist
  | permissionDenied
  deriving DecidableEq, Repr

/-- Truthiness of request.POST.get with a False default: present and
non-empty is truthy (resources.py line 2309). -/
def postParamTruthy : Option String → Bool
  | none => false
  | some s => s ≠ ""

/-- ReviewRequestDraftResource.update (resources.py lines 2260-2319) over
a state consisting of the prepared draft and the owning review request.
The review request type and its publish transition are parameters: the
publish implementation lives in reviewboard.reviews.models, outside the
file under study, and may also rewrite the draft (publishing deletes it).
rrExists models review_request_resource.get_object succeeding; canMutate
models review_request.is_mutable_by(request.user) inside prepare_draft.
Scalar field writes land on the in-memory record and are persisted only
on the save path (always_save or no invalid field); the many-to-many
target writes already happened inside the loop, so the rejected path
keeps them (resources.py lines 2298-2307). -/
def draft_resource_update {ρ : Type} (publishRR : ρ → Draft → ρ × Draft)
    (rg ru : String → Option Nat) (rrExists canMutate alwaysSave : Bool)
    (p : DraftPayload) (publicRaw : Option String) (d : Draft) (rr : ρ) :
    DraftOutcome × Draft × ρ :=
  if !rrExists then (.doesNotExist, d, rr)
  else if !canMutate then (.permissionDenied, d, rr)
  else
    let md := draftFieldsLoop rg ru p d
    let saved : Draft :=
      if alwaysSave || md.2.isEmpty then md.1
      else { d with target_groups := md.1.target_groups,
                    target_people := md.1.target_people }
    if !md.2.isEmpty then (.invalidFormData md.2, saved, rr)
    else if postParamTruthy publicRaw then
      let pr := publishRR rr saved
      (.seeOther, pr.2, pr.1)
    else (.ok 200 saved, saved, rr)

/-- ReviewRequestDraftResource.create (resources.py lines 2199-2212):
delegate to update, and report a 200 tuple as 201. -/
def draft_resource_create {ρ : Type} (publishRR : ρ → Draft → ρ × Draft)
    (rg ru : String → Option Nat) (rrExists canMutate alwaysSave : Bool)
    (p : DraftPayload) (publicRaw : Option String) (d : Draft) (rr : ρ) :
    DraftOutcome × Draft × ρ :=
  let result := draft_resource_update publishRR rg ru rrExists canMutate
    alwaysSave p publicRaw d rr
  match result with
  | (DraftOutcome.ok c b, d2, rr2) =>
    if c = 200 then (DraftOutcome.ok 201 b, d2, rr2)
    else (DraftOutcome.ok c b, d2, rr2)
  | r => r

/-- Written from the words of the specification, for comparison with
draft_resource_create: the create operation is the update operation with
a 200 success reported as 201 and every other outcome identical. -/
def retagSuccessAsCreated : DraftOutcome → DraftOutcome
  | DraftOutcome.ok c b =>
    if c = 200 then DraftOutcome.ok 201 b else DraftOutcome.ok c b
  | o => o

/-! ## Reviews and replies (BaseReviewResource, ReviewReplyResource) -/

/-- A row of the Review model as the resource layer touches it.  A reply
is a Review whose base_reply_to is set; users are identified by id. -/
structure Review where
  id : Nat
  review_request : Nat
  user : Nat
  public : Bool
  ship_it : Bool
  body_top : String
  body_bottom : String
  body_top_reply_to : Option Nat
  body_bottom_reply_to : Option Nat
  base_reply_to : Option Nat
  deriving DecidableEq, Repr

/-- BaseReviewResource.has_access_permissions (resources.py lines
2943-2944): the review is public or owned by the requesting user. -/
def has_access_permissions (requester : Nat) (review : Review) : Bool :=
  review.public || review.user == requester

/-- BaseReviewResource.has_modify_permissions (resources.py lines
2946-2947): not public, and owned by the requesting user. -/
def has_modify_permissions (requester : Nat) (review : Review) : Bool :=
  !review.public && review.user == requester

/-- BaseReviewResource.has_delete_permissions (resources.py lines
2949-2950). -/
def has_delete_permissions (requester : Nat) (review : Review) : Bool :=
  !review.public && review.user == requester

/-- ReviewDiffCommentResource.has_delete_permissions (resources.py lines
288-290) and its twin ReviewScreenshotCommentResource (lines 2584-2586):
the comment's owning review must be non-public and owned by the
requester. -/
def comment_has_delete_permissions (requester : Nat) (review : Review) : Bool :=
  !review.public && review.user == requester

/-- BaseReviewResource.get_queryset (resources.py lines 2929-2938): scope
to the review request and to the base_reply_to key of the concrete
resource (none for ReviewResource via the isnull filter, the parent
review id for ReviewReplyResource), and keep only public rows when
serving a list. -/
def base_review_get_queryset (reviews : List Review) (review_request_id : Nat)
    (baseReplyTo : Option Nat) (is_list : Bool) : List Review :=
  reviews.filter (fun r =>
    r.review_request == review_request_id &&
    r.base_reply_to == baseReplyTo &&
    (!is_list || r.public))

/-- Outcome of a review or reply item operation. -/
inductive ReviewOutcome where
  | ok (review : Review)
  | doesNotExist
  | permissionDenied
  deriving DecidableEq, Repr

/-- Payload for the review create and update operations, after the
webapi_request_fields decorator (resources.py lines 2954-2974). -/
structure ReviewPayload where
  ship_it : Option Bool := none
  body_top : Option String := none
  body_bottom : Option String := none
  public : Option Bool := none
  deriving DecidableEq, Repr

/-- BaseReviewResource._update_review (resources.py lines 3090-3110).
Review.publish lives outside the file under study and is a parameter. -/
def update_review (publishReview : Review → Review) (requester : Nat)
    (p : ReviewPayload) (review : Review) : ReviewOutcome × Review :=
  if !(has_modify_permissions requester review) then
    (.permissionDenied, review)
  else
    let r1 := match p.ship_it with
      | none => review
      | some b => { review with ship_it := b }
    let r2 := match p.body_top with
      | none => r1
      | some s => { r1 with body_top := s }
    let r3 := match p.body_bottom with
      | none => r2
      | some s => { r2 with body_bottom := s }
    let r4 := if p.public.getD false then publishReview r3 else r3
    (.ok r4, r4)

/-- Payload for the reply create and update operations (resources.py
lines 3211-3229). -/
structure ReplyPayload where
  body_top : Option String := none
  body_bottom : Option String := none
  public : Option Bool := none
  deriving DecidableEq, Repr

/-- ReviewReplyResource._update_reply (resources.py lines 3337-3364):
setting a replyable body field also rewrites its reply-to back-reference,
clearing it on an empty value and pointing it at the base_reply_to review
otherwise.  Reply publishing is external and a parameter. -/
def update_reply (publishReply : Review → Review) (requester : Nat)
    (p : ReplyPayload) (reply : Review) : ReviewOutcome × Review :=
  if !(has_modify_permissions requester reply) then
    (.permissionDenied, reply)
  else
    let r1 := match p.body_top with
      | none => reply
      | some v =>
        { reply with
          body_top := v,
          body_top_reply_to := if v = "" then none else reply.base_reply_to }
    let r2 := match p.body_bottom with
      | none => r1
      | some v =>
        { r1 with
          body_bottom := v,
          body_bottom_reply_to := if v = "" then none else r1.base_reply_to }
    let r3 := if p.public.getD false then publishReply r2 else r2
    (.ok r3, r3)

/-! ## Reply comments (ReviewReplyDiffCommentResource,
ReviewReplyScreenshotCommentResource) -/

/-- A row of the Comment model (diff comments). -/
structure DiffCommentRec where
  id : Nat
  filediff : Nat
  interfilediff : Option Nat
  text : String
  first_line : Nat
  num_lines : Nat
  reply_to : Option Nat
  deriving DecidableEq, Repr

/-- A row of the ScreenshotComment model. -/
structure ScreenshotCommentRec where
  id : Nat
  screenshot : Nat
  x : Nat
  y : Nat
  w : Nat
  h : Nat
  text : String
  reply_to : Option Nat
  deriving DecidableEq, Repr

/-- Outcome of a reply comment creation. -/
inductive CommentCreateOutcome (γ : Type) where
  | created (comment : γ)
  | doesNotExist
  | permissionDenied
  | invalidFormData (fields : List (String × List String))
  deriving DecidableEq, Repr

/-- ReviewReplyDiffCommentResource.create (resources.py lines 497-537).
parentsExist models the review request and reply lookups succeeding;
parent is the reply_to_id lookup through
review_diff_comment_resource.get_object, none when it fails; newId is
the id the database assigns to the inserted row.  The reply's comment
set gains the new row, which this abstraction leaves implicit. -/
def reply_diff_comment_create (parentsExist : Bool) (requester : Nat)
    (reply : Review) (parent : Option DiffCommentRec) (text : String)
    (newId : Nat) : CommentCreateOutcome DiffCommentRec :=
  if !parentsExist then .doesNotExist
  else if !(has_modify_permissions requester reply) then .permissionDenied
  else
    match parent with
    | none => .invalidFormData [("reply_to_id", ["This is not a valid comment ID"])]
    | some comment =>
      .created { id := newId,
                 filediff := comment.filediff,
                 interfilediff := comment.interfilediff,
                 reply_to := some comment.id,
                 text := text,
                 first_line := comment.first_line,
                 num_lines := comment.num_lines }

/-- ReviewReplyScreenshotCommentResource.create (resources.py lines
2770-2812).  The source constructs the new ScreenshotComment from the
parent's screenshot and region and the payload text only; unlike the
diff twin it passes no reply_to, so the column keeps its null default. -/
def reply_screenshot_comment_create (parentsExist : Bool) (requester : Nat)
    (reply : Review) (parent : Option ScreenshotCommentRec) (text : String)
    (newId : Nat) : CommentCreateOutcome ScreenshotCommentRec :=
  if !parentsExist then .doesNotExist
  else if !(has_modify_permissions requester reply) then .permissionDenied
  else
    match parent with
    | none =>
      .invalidFormData
        [("reply_to_id", ["This is not a valid screenshot comment ID"])]
    | some comment =>
      .created { id := newId,
                 screenshot := comment.screenshot,
                 x := comment.x,
                 y := comment.y,
                 w := comment.w,
                 h := comment.h,
                 text := text,
                 reply_to := none }

/-! ## The watch list (BaseWatchedObjectResource) -/

/-- The Profile table restricted to what the watched-object resource
touches: one row per user carrying the starred targets of the watched
kind.  The database enforces one profile row per user; lookups take the
first matching row. -/
structure WatchState where
  profiles : List (Nat × List Nat)
  deriving DecidableEq, Repr

/-- First-match lookup of a profile row's starred set. -/
def lookupStarred (u : Nat) : List (Nat × List Nat) → Option (List Nat)
  | [] => none
  | pr :: rest => if pr.1 = u then some pr.2 else lookupStarred u rest

/-- Profile.objects.get_or_create(user=request.user): the starred set of
the user's row, whether the row was newly inserted, and the table after
the call. -/
def getOrCreateProfile (st : WatchState) (u : Nat) :
    List Nat × Bool × WatchState :=
  match lookupStarred u st.profiles with
  | some s => (s, false, st)
  | none => ([], true, { profiles := st.profiles ++ [(u, [])] })

/-- Update the first profile row of a user. -/
def updateStarred (u : Nat) (f : List Nat → List Nat) :
    List (Nat × List Nat) → List (Nat × List Nat)
  | [] => []
  | pr :: rest =>
    if pr.1 = u then (pr.1, f pr.2) :: rest
    else pr :: updateStarred u f rest

/-- Modelled from the spec: Profile.star_review_group and
Profile.star_review_request live in reviewboard.accounts.models, outside
the file under study; per section 4.4 starring idempotently adds the
target to the profile's watch set (a many-to-many add). -/
def starTarget (st : WatchState) (u t : Nat) : WatchState :=
  { profiles := updateStarred u (fun s => m2mAdd s t) st.profiles }

/-- Modelled from the spec: Profile.unstar_review_group and
Profile.unstar_review_request, outside the file under study; per section
4.4 unstarring idempotently removes the target, a no-op when absent. -/
def unstarTarget (st : WatchState) (u t : Nat) : WatchState :=
  { profiles := updateStarred u (fun s => s.filter (fun x => x ≠ t)) st.profiles }

/-- Whether a watch entry for the pair exists. -/
def isStarred (st : WatchState) (u t : Nat) : Bool :=
  match lookupStarred u st.profiles with
  | some s => decide (t ∈ s)
  | none => false

/-- Number of watch entries recorded for the pair. -/
def starCount (st : WatchState) (u t : Nat) : Nat :=
  match lookupStarred u st.profiles with
  | some s => s.count t
  | none => 0

/-- Outcome of a watched-object create or delete call. -/
inductive WatchOutcome where
  | created (target : Nat)
  | deleted
  | doesNotExist
  | permissionDenied
  deriving DecidableEq, Repr

/-- BaseWatchedObjectResource.create (resources.py lines 1204-1232):
resolve the watched object and the user (doesNotExist on failure), check
modify permission, get or create the profile, then star. -/
def watched_object_create (targetExists userExists canModify : Bool)
    (requester target : Nat) (st : WatchState) : WatchOutcome × WatchState :=
  if !targetExists || !userExists then (.doesNotExist, st)
  else if !canModify then (.permissionDenied, st)
  else
    let g := getOrCreateProfile st requester
    (.created target, starTarget g.2.2 requester target)

/-- BaseWatchedObjectResource.delete (resources.py lines 1234-1255): same
resolution and permission steps, get or create the profile, and unstar
only when the profile already existed; always 204. -/
def watched_object_delete (targetExists userExists canModify : Bool)
    (requester target : Nat) (st : WatchState) : WatchOutcome × WatchState :=
  if !targetExists || !userExists then (.doesNotExist, st)
  else if !canModify then (.permissionDenied, st)
  else
    let g := getOrCreateProfile st requester
    if !g.2.1 then (.deleted, unstarTarget g.2.2 requester target)
    else (.deleted, g.2.2)

/-! ## List responses and counts-only mode (WebAPIResource.get_list) -/

/-- Body of a list response: either the lone count field of counts-only
mode or the serialized results. -/
inductive ListBody (β : Type) where
  | counts (count : Nat)
  | items (results : List β)
  deriving DecidableEq, Repr

/-- WebAPIResource.get_list (resources.py lines 87-103): with a model and
a truthy counts-only parameter, answer 200 with only the queryset count;
otherwise fall through to the inherited djblets implementation, which is
outside the file under study and is a parameter. -/
def web_api_get_list {α β : Type} (hasModel countsOnly : Bool)
    (queryset : List α) (fallback : Nat × ListBody β) : Nat × ListBody β :=
  if hasModel && countsOnly then (200, .counts queryset.length)
  else fallback

/-- BaseWatchedObjectResource.get_list (resources.py lines 1191-1202):
the override serializes every queryset row and answers 200 with the
list, taking no notice of the counts-only parameter (the source carries
a TODO to handle it). -/
def watched_object_get_list {α β : Type} (countsOnly : Bool)
    (queryset : List α) (serialize : α → β) : Nat × ListBody β :=
  (200, .items (queryset.map serialize))

/-! ## Review request listing date filters (ReviewRequestResource) -/

/-- ReviewRequestResource._parse_date (resources.py lines 4124-4128):
dateutil.parser.parse is an external collaborator, modelled as a
function returning none where the library would raise ValueError. -/
def parse_date (parse : String → Option Nat) (timestamp_str : String) :
    Option Nat :=
  parse timestamp_str

/-- The four optional date-range parameters of the review request list
query (resources.py lines 3809-3831). -/
structure DateParams where
  time_added_from : Option String := none
  time_added_to : Option String := none
  last_updated_from : Option String := none
  last_updated_to : Option String := none
  deriving DecidableEq, Repr

/-- The timestamp columns a review request row exposes to the date
filters. -/
structure RRTimes where
  time_added : Nat
  last_updated : Nat
  deriving DecidableEq, Repr

/-- The conjunction of date constraints built by
ReviewRequestResource.get_queryset (resources.py lines 3809-3831): a
parameter whose value parses contributes its bound, and one whose value
does not parse contributes nothing. -/
def dateRangePred (parse : String → Option Nat) (ps : DateParams)
    (row : RRTimes) : Bool :=
  (match ps.time_added_from with
   | none => true
   | some v => match parse_date parse v with
     | none => true
     | some d => decide (d ≤ row.time_added)) &&
  (match ps.time_added_to with
   | none => true
   | some v => match parse_date parse v with
     | none => true
     | some d => decide (row.time_added < d)) &&
  (match ps.last_updated_from with
   | none => true
   | some v => match parse_date parse v with
     | none => true
     | some d => decide (d ≤ row.last_updated)) &&
  (match ps.last_updated_to with
   | none => true
   | some v => match parse_date parse v with
     | none => true
     | some d => decide (row.last_updated < d))

/-- The date portion of the review request list query applied to the
rows. -/
def review_request_date_filter (parse : String → Option Nat)
    (ps : DateParams) (rows : List RRTimes) : List RRTimes :=
  rows.filter (dateRangePred parse ps)

/-! ## Review request status update (ReviewRequestResource.update) -/

/-- The three values the status parameter's enumerated type admits
through the webapi_request_fields decorator on update (resources.py
lines 3955-3963). -/
inductive StatusParam where
  | discarded
  | pending
  | submitted
  deriving DecidableEq, Repr

/-- string_to_status restricted to the three decorator-admitted values
(resources.py lines 4263-4269): the stored status code letter. -/
def statusCode : StatusParam → String
  | .pending => "P"
  | .submitted => "S"
  | .discarded => "D"

/-- Outcome of ReviewRequestResource.update. -/
inductive RRUpdateOutcome where
  | ok200
  | doesNotExist
  | permissionDenied
  deriving DecidableEq, Repr

/-- ReviewRequestResource.update (resources.py lines 3965-3999) over an
abstract review request state.  The close and reopen transitions live in
reviewboard.reviews.models, outside the file under study, and are
parameters whose error case models PermissionError; getStatus reads the
stored status code.  A close is attempted only when the requested status
is present and differs from the current one; submitted and discarded go
through close with the mapped code, pending through reopen. -/
def review_request_update {α : Type} (closeF : α → String → Except Unit α)
    (reopenF : α → Except Unit α) (getStatus : α → String) (rrExists : Bool)
    (status : Option StatusParam) (rr : α) : RRUpdateOutcome × α :=
  if !rrExists then (.doesNotExist, rr)
  else
    match status with
    | none => (.ok200, rr)
    | some s =>
      if getStatus rr ≠ statusCode s then
        let act : Except Unit α :=
          match s with
          | .submitted => closeF rr "S"
          | .discarded => closeF rr "D"
          | .pending => reopenF rr
        match act with
        | .error _ => (.permissionDenied, rr)
        | .ok rr2 => (.ok200, rr2)
      else (.ok200, rr)

/-! ## Concrete records used to exercise the definitions -/

/-- A group resolver knowing one group, named g1, with id 1. -/
def rgEx : String → Option Nat := fun s => if s = "g1" then some 1 else none

/-- A user resolver knowing no usernames. -/
def ruEx : String → Option Nat := fun _ => none

/-- A prepared draft whose reviewer group set holds group 2. -/
def draftEx : Draft :=
  { branch := "", bugs_closed := "", changedesc := none, description := "",
    public := false, summary := "", target_groups := [2], target_people := [],
    testing_done := "" }

/-- A payload naming one resolvable and one unresolvable group. -/
def payloadEx : DraftPayload := { target_groups := some "g1, nope" }

/-- A published review by user 5 on review request 1. -/
def publicReviewEx : Review :=
  { id := 10, review_request := 1, user := 5, public := true, ship_it := false,
    body_top := "t", body_bottom := "b", body_top_reply_to := none,
    body_bottom_reply_to := none, base_reply_to := none }

/-- A private review by user 5 on review request 1. -/
def privateReviewEx : Review :=
  { id := 12, review_request := 1, user := 5, public := false, ship_it := false,
    body_top := "", body_bottom := "", body_top_reply_to := none,
    body_bottom_reply_to := none, base_reply_to := none }

/-- A draft reply by user 5 to review 10. -/
def draftReplyEx : Review :=
  { id := 11, review_request := 1, user := 5, public := false, ship_it := false,
    body_top := "", body_bottom := "", body_top_reply_to := none,
    body_bottom_reply_to := none, base_reply_to := some 10 }

/-- A reply payload touching both body fields, one of them emptied. -/
def replyPayloadEx : ReplyPayload :=
  { body_top := some "hi", body_bottom := some "" }

/-- A parent diff comment on lines 10-12 of filediff 3. -/
def parentDiffCommentEx : DiffCommentRec :=
  { id := 7, filediff := 3, interfilediff := none, text := "orig",
    first_line := 10, num_lines := 3, reply_to := none }

/-- A parent screenshot comment on region (1, 2, 3, 4) of screenshot 4. -/
def parentScreenshotCommentEx : ScreenshotCommentRec :=
  { id := 8, screenshot := 4, x := 1, y := 2, w := 3, h := 4, text := "orig",
    reply_to := none }

/-- A profile table holding only a row for user 2, who starred target 7. -/
def watchStEx : WatchState := { profiles := [(2, [7])] }

/-- A date parser on which every value fails, as dateutil does on
unparsable text. -/
def parseNoneEx : String → Option Nat := fun _ => none

/-- One review request row for the date filters. -/
def rrRowsEx : List RRTimes := [{ time_added := 3, last_updated := 9 }]

/-- The list used to exercise the review queryset. -/
def reviewsEx : List Review := [publicReviewEx, privateReviewEx]

/-- A close transition that always raises PermissionError. -/
def closeErrEx : String → String → Except Unit String := fun _ _ => .error ()

/-- A reopen transition that always raises PermissionError. -/
def reopenErrEx : String → Except Unit String := fun _ => .error ()

/-! ## Helper lemmas -/

theorem set_draft_field_data_keeps_target_groups (rg ru : String → Option Nat)
    (d : Draft) (f : DraftField) (v : FieldVal)
    (hf : f ≠ DraftField.target_groups) :
    ((set_draft_field_data rg ru d f v).1).target_groups = d.target_groups := by
  cases f with
  | branch => rfl
  | bugs_closed => rfl
  | changedescription => cases h : d.changedesc <;> simp [set_draft_field_data, h]
  | description => rfl
  | publicFlag => rfl
  | summary =>
    simp only [set_draft_field_data]
    split <;> rfl
  | target_groups => exact absurd rfl hf
  | target_people => rfl
  | testing_done => rfl

theorem set_draft_field_data_keeps_target_people (rg ru : String → Option Nat)
    (d : Draft) (f : DraftField) (v : FieldVal)
    (hf : f ≠ DraftField.target_people) :
    ((set_draft_field_data rg ru d f v).1).target_people = d.target_people := by
  cases f with
  | branch => rfl
  | bugs_closed => rfl
  | changedescription => cases h : d.changedesc <;> simp [set_draft_field_data, h]
  | description => rfl
  | publicFlag => rfl
  | summary =>
    simp only [set_draft_field_data]
    split <;> rfl
  | target_groups => rfl
  | target_people => exact absurd rfl hf
  | testing_done => rfl

theorem draftFieldStep_keeps_target_groups (rg ru : String → Option Nat)
    (f : DraftField) (v : Option FieldVal)
    (st : Draft × List (String × List String))
    (hf : f ≠ DraftField.target_groups) :
    ((draftFieldStep rg ru f v st).1).target_groups = st.1.target_groups := by
  obtain ⟨d, inv⟩ := st
  cases v with
  | none => rfl
  | some data =>
    simp only [draftFieldStep]
    split <;> exact set_draft_field_data_keeps_target_groups rg ru d f data hf

theorem draftFieldStep_keeps_target_people (rg ru : String → Option Nat)
    (f : DraftField) (v : Option FieldVal)
    (st : Draft × List (String × List String))
    (hf : f ≠ DraftField.target_people) :
    ((draftFieldStep rg ru f v st).1).target_people = st.1.target_people := by
  obtain ⟨d, inv⟩ := st
  cases v with
  | none => rfl
  | some data =>
    simp only [draftFieldStep]
    split <;> exact set_draft_field_data_keeps_target_people rg ru d f data hf

theorem draftFieldStep_target_groups_val (rg ru : String → Option Nat)
    (v : Option FieldVal) (st : Draft × List (String × List String)) :
    ((draftFieldStep rg ru DraftField.target_groups v st).1).target_groups
      = match v with
        | none => st.1.target_groups
        | some data => (targetLoop rg (splitCommaWS data.asStr)).1 := by
  obtain ⟨d, inv⟩ := st
  cases v with
  | none => rfl
  | some data =>
    simp only [draftFieldStep, set_draft_field_data]
    split <;> rfl

theorem draftFieldStep_target_people_val (rg ru : String → Option Nat)
    (v : Option FieldVal) (st : Draft × List (String × List String)) :
    ((draftFieldStep rg ru DraftField.target_people v st).1).target_people
      = match v with
        | none => st.1.target_people
        | some data =>
          (targetLoop (fun u => ru (pyStrip u)) (splitCommaWS data.asStr)).1 := by
  obtain ⟨d, inv⟩ := st
  cases v with
  | none => rfl
  | some data =>
    simp only [draftFieldStep, set_draft_field_data]
    split <;> rfl

theorem draftFieldsLoop_target_groups (rg ru : String → Option Nat)
    (p : DraftPayload) (d : Draft) :
    ((draftFieldsLoop rg ru p d).1).target_groups
      = match p.target_groups with
        | none => d.target_groups
        | some s => (targetLoop rg (splitCommaWS s)).1 := by
  unfold draftFieldsLoop
  rw [draftFieldStep_keeps_target_groups _ _ _ _ _ (by decide),
    draftFieldStep_keeps_target_groups _ _ _ _ _ (by decide),
    draftFieldStep_target_groups_val]
  cases p.target_groups with
  | none =>
    simp only [Option.map_none']
    rw [draftFieldStep_keeps_target_groups _ _ _ _ _ (by decide),
      draftFieldStep_keeps_target_groups _ _ _ _ _ (by decide),
      draftFieldStep_keeps_target_groups _ _ _ _ _ (by decide),
      draftFieldStep_keeps_target_groups _ _ _ _ _ (by decide),
      draftFieldStep_keeps_target_groups _ _ _ _ _ (by decide),
      draftFieldStep_keeps_target_groups _ _ _ _ _ (by decide)]
  | some s => rfl

theorem draftFieldsLoop_target_people (rg ru : String → Option Nat)
    (p : DraftPayload) (d : Draft) :
    ((draftFieldsLoop rg ru p d).1).target_people
      = match p.target_people with
        | none => d.target_people
        | some s => (targetLoop (fun u => ru (pyStrip u)) (splitCommaWS s)).1 := by
  unfold draftFieldsLoop
  rw [draftFieldStep_keeps_target_people _ _ _ _ _ (by decide),
    draftFieldStep_target_people_val]
  cases p.target_people with
  | none =>
    simp only [Option.map_none']
    rw [draftFieldStep_keeps_target_people _ _ _ _ _ (by decide),
      draftFieldStep_keeps_target_people _ _ _ _ _ (by decide),
      draftFieldStep_keeps_target_people _ _ _ _ _ (by decide),
      draftFieldStep_keeps_target_people _ _ _ _ _ (by decide),
      draftFieldStep_keeps_target_people _ _ _ _ _ (by decide),
      draftFieldStep_keeps_target_people _ _ _ _ _ (by decide),
      draftFieldStep_keeps_target_people _ _ _ _ _ (by decide)]
  | some s => rfl

theorem lookupStarred_updateStarred_self (u : Nat) (f : List Nat → List Nat)
    (l : List (Nat × List Nat)) :
    lookupStarred u (updateStarred u f l) = (lookupStarred u l).map f := by
  induction l with
  | nil => rfl
  | cons pr rest ih =>
    by_cases h : pr.1 = u <;> simp [lookupStarred, updateStarred, h, ih]

theorem lookupStarred_updateStarred_other (u u2 : Nat) (f : List Nat → List Nat)
    (l : List (Nat × List Nat)) (h : u2 ≠ u) :
    lookupStarred u2 (updateStarred u f l) = lookupStarred u2 l := by
  induction l with
  | nil => rfl
  | cons pr rest ih =>
    by_cases h1 : pr.1 = u
    · have h2 : u ≠ u2 := fun hx => h hx.symm
      simp [lookupStarred, updateStarred, h1, h2]
    · by_cases h2 : pr.1 = u2 <;>
        simp [lookupStarred, updateStarred, h1, h2, h, ih]

theorem lookupStarred_append (u : Nat) (l1 l2 : List (Nat × List Nat)) :
    lookupStarred u (l1 ++ l2)
      = match lookupStarred u l1 with
        | some s => some s
        | none => lookupStarred u l2 := by
  induction l1 with
  | nil => rfl
  | cons pr rest ih =>
    by_cases h : pr.1 = u <;> simp [lookupStarred, h, ih]

theorem m2mAdd_count_self (l : List Nat) (t : Nat) (h : l.count t ≤ 1) :
    (m2mAdd l t).count t = 1 := by
  unfold m2mAdd
  by_cases hc : t ∈ l
  · rw [if_pos hc]
    have h1 : 0 < l.count t := List.count_pos_iff.mpr hc
    omega
  · rw [if_neg hc]
    have h0 : l.count t = 0 := List.count_eq_zero.mpr hc
    simp [List.count_append, h0]

theorem filter_ne_mem_eq (s : List Nat) (t t2 : Nat) (h : t ∉ s) :
    (t2 ∈ s.filter (fun x => x ≠ t)) ↔ t2 ∈ s := by
  rw [List.mem_filter]
  constructor
  · exact fun hx => hx.1
  · intro hx
    refine ⟨hx, ?_⟩
    simp only [ne_eq, decide_eq_true_eq]
    intro he
    exact h (he ▸ hx)

theorem starCount_watched_create (r t : Nat) (st : WatchState)
    (h : starCount st r t ≤ 1) :
    starCount (watched_object_create true true true r t st).2 r t = 1 := by
  cases hl : lookupStarred r st.profiles with
  | some s =>
    have hcount : s.count t ≤ 1 := by
      rw [starCount, hl] at h
      exact h
    simp only [watched_object_create, getOrCreateProfile, hl, Bool.not_true,
      Bool.or_self, Bool.false_eq_true, if_false, starCount, starTarget,
      isStarred]
    rw [lookupStarred_updateStarred_self, hl]
    exact m2mAdd_count_self s t hcount
  | none =>
    simp only [watched_object_create, getOrCreateProfile, hl, Bool.not_true,
      Bool.or_self, Bool.false_eq_true, if_false, starCount, starTarget,
      isStarred]
    rw [lookupStarred_updateStarred_self, lookupStarred_append, hl]
    simp [lookupStarred, m2mAdd]

/-! ## Claim theorems -/

/-- C1 (amended): when a draft update carries a field that fails
validation and the caller does not force a save, the call answers
InvalidInput with the field-keyed error map and persists neither the
scalar draft fields nor anything on the review request — but the
set-valued target_groups and target_people are rewritten anyway: each one
present in the payload ends as the sets cleared and repopulated with the
entries that resolved, because the many-to-many writes happen inside the
field loop, before validation is tallied. -/
theorem draft_update_rejected_keeps_scalars_not_targets {ρ : Type}
    (publishRR : ρ → Draft → ρ × Draft) (rg ru : String → Option Nat)
    (p : DraftPayload) (publicRaw : Option String) (d : Draft) (rr : ρ)
    (hinv : (draftFieldsLoop rg ru p d).2 ≠ []) :
    draft_resource_update publishRR rg ru true true false p publicRaw d rr
      = (DraftOutcome.invalidFormData (draftFieldsLoop rg ru p d).2,
         { d with
             target_groups :=
               match p.target_groups with
               | none => d.target_groups
               | some s => (targetLoop rg (splitCommaWS s)).1,
             target_people :=
               match p.target_people with
               | none => d.target_people
               | some s =>
                 (targetLoop (fun u => ru (pyStrip u)) (splitCommaWS s)).1 },
         rr) := by
  have hemp : (draftFieldsLoop rg ru p d).2.isEmpty = false := by
    cases h : (draftFieldsLoop rg ru p d).2 with
    | nil => exact absurd h hinv
    | cons a l => rfl
  unfold draft_resource_update
  simp only [hemp, Bool.not_true, Bool.false_eq_true, if_false, Bool.false_or,
    Bool.not_false, if_true]
  rw [draftFieldsLoop_target_groups, draftFieldsLoop_target_people]

/-- C1 witness: the amended theorem applied to a payload naming one
resolvable and one unresolvable group against the example draft. -/
theorem draft_update_rejected_witness :
    (draftFieldsLoop rgEx ruEx payloadEx draftEx).2 ≠ [] ∧
    draft_resource_update (ρ := Unit) (fun u dr => (u, dr)) rgEx ruEx true true
        false payloadEx none draftEx ()
      = (DraftOutcome.invalidFormData [("target_groups", ["nope"])],
         { draftEx with target_groups := [1] }, ()) := by
  refine ⟨by decide, ?_⟩
  rw [draft_update_rejected_keeps_scalars_not_targets (ρ := Unit)
    (fun u dr => (u, dr)) rgEx ruEx payloadEx none draftEx () (by decide)]
  decide

/-- C1 counterexample: on the same input the call is rejected with
InvalidInput, yet the draft's target_groups set differs afterwards — the
claim that every field, including the set-valued ones, is unchanged by a
rejected update fails. -/
theorem draft_update_rejected_targets_counterexample :
    (draft_resource_update (ρ := Unit) (fun u dr => (u, dr)) rgEx ruEx true
        true false payloadEx none draftEx ()).1
      = DraftOutcome.invalidFormData [("target_groups", ["nope"])] ∧
    (draft_resource_update (ρ := Unit) (fun u dr => (u, dr)) rgEx ruEx true
        true false payloadEx none draftEx ()).2.1.target_groups
      ≠ draftEx.target_groups := by
  exact ⟨by decide, by decide⟩

/-- C6: a draft reply update by its owner that does not publish sets each
replyable body field present in the payload and rewrites the matching
reply-to back-reference — cleared on an empty value, pointed at the
reply's base_reply_to review otherwise — while a field absent from the
payload keeps both the field and its back-reference. -/
theorem reply_body_backreferences (publishReply : Review → Review)
    (requester : Nat) (p : ReplyPayload) (reply : Review)
    (hmod : has_modify_permissions requester reply = true)
    (hpub : p.public.getD false = false) :
    (update_reply publishReply requester p reply).1
      = ReviewOutcome.ok (update_reply publishReply requester p reply).2 ∧
    (update_reply publishReply requester p reply).2.body_top
      = (match p.body_top with
         | none => reply.body_top
         | some v => v) ∧
    (update_reply publishReply requester p reply).2.body_top_reply_to
      = (match p.body_top with
         | none => reply.body_top_reply_to
         | some v => if v = "" then none else reply.base_reply_to) ∧
    (update_reply publishReply requester p reply).2.body_bottom
      = (match p.body_bottom with
         | none => reply.body_bottom
         | some v => v) ∧
    (update_reply publishReply requester p reply).2.body_bottom_reply_to
      = (match p.body_bottom with
         | none => reply.body_bottom_reply_to
         | some v => if v = "" then none else reply.base_reply_to) := by
  unfold update_reply
  rw [hmod]
  simp only [Bool.not_true, Bool.false_eq_true, if_false, hpub]
  cases p.body_top <;> cases p.body_bottom <;> simp

/-- C6 witness: the theorem applied to the example draft reply with a
payload writing a non-empty body_top and an empty body_bottom: the first
back-reference lands on the base_reply_to review 10, the second is
cleared. -/
theorem reply_body_backreferences_witness :
    has_modify_permissions 5 draftReplyEx = true ∧
    (update_reply id 5 replyPayloadEx draftReplyEx).2.body_top_reply_to
      = some 10 ∧
    (update_reply id 5 replyPayloadEx draftReplyEx).2.body_bottom_reply_to
      = none := by
  refine ⟨rfl, ?_, ?_⟩
  · exact ((reply_body_backreferences id 5 replyPayloadEx draftReplyEx rfl
      rfl).2.2.1).trans (by decide)
  · exact ((reply_body_backreferences id 5 replyPayloadEx draftReplyEx rfl
      rfl).2.2.2.2).trans (by decide)

/-- C7: a date-range parameter of the review request list whose value the
external parser rejects contributes no constraint: the filtered rows are
exactly those of the query without the parameter, for each of the four
date filters, and the query still yields a result rather than an error. -/
theorem unparsable_dates_no_constraint (parse : String → Option Nat)
    (ps : DateParams) (rows : List RRTimes) (vaf vat vuf vut : String)
    (h1 : parse vaf = none) (h2 : parse vat = none) (h3 : parse vuf = none)
    (h4 : parse vut = none) :
    review_request_date_filter parse { ps with time_added_from := some vaf }
        rows
      = review_request_date_filter parse { ps with time_added_from := none }
          rows ∧
    review_request_date_filter parse { ps with time_added_to := some vat }
        rows
      = review_request_date_filter parse { ps with time_added_to := none }
          rows ∧
    review_request_date_filter parse { ps with last_updated_from := some vuf }
        rows
      = review_request_date_filter parse { ps with last_updated_from := none }
          rows ∧
    review_request_date_filter parse { ps with last_updated_to := some vut }
        rows
      = review_request_date_filter parse { ps with last_updated_to := none }
          rows := by
  refine ⟨?_, ?_, ?_, ?_⟩ <;>
    · unfold review_request_date_filter
      congr 1
      funext row
      simp [dateRangePred, parse_date, h1, h2, h3, h4]

/-- C7 witness: the theorem applied to a parser rejecting everything, the
empty parameter set and one concrete row. -/
theorem unparsable_dates_no_constraint_witness :
    parseNoneEx "bogus" = none ∧
    review_request_date_filter parseNoneEx
        { ({} : DateParams) with time_added_from := some "bogus" } rrRowsEx
      = review_request_date_filter parseNoneEx
          { ({} : DateParams) with time_added_from := none } rrRowsEx :=
  ⟨rfl,
   (unparsable_dates_no_constraint parseNoneEx {} rrRowsEx "bogus" "bogus"
      "bogus" "bogus" rfl rfl rfl rfl).1⟩

/-- C5 (amended): starring a target twice in sequence succeeds both times
and leaves exactly one watch entry for the pair; unstarring a target with
no watch entry answers 204 and leaves every watch entry as it was — but
when the principal's profile row does not yet exist, the call lazily
creates an empty one, so the stored state is not entirely unchanged. -/
theorem star_idempotent_unstar_noop (requester target : Nat) (st : WatchState)
    (hwf : starCount st requester target ≤ 1) :
    (watched_object_create true true true requester target st).1
      = WatchOutcome.created target ∧
    (watched_object_create true true true requester target
        (watched_object_create true true true requester target st).2).1
      = WatchOutcome.created target ∧
    starCount (watched_object_create true true true requester target
        (watched_object_create true true true requester target st).2).2
        requester target = 1 ∧
    (isStarred st requester target = false →
      (watched_object_delete true true true requester target st).1
        = WatchOutcome.deleted ∧
      ∀ u t2,
        isStarred (watched_object_delete true true true requester target st).2
            u t2
          = isStarred st u t2) := by
  refine ⟨rfl, rfl, ?_, ?_⟩
  · exact starCount_watched_create requester target _
      (starCount_watched_create requester target st hwf).le
  · intro hns
    refine ⟨?_, ?_⟩
    · cases hl : lookupStarred requester st.profiles <;>
        simp [watched_object_delete, getOrCreateProfile, hl]
    · intro u t2
      cases hl : lookupStarred requester st.profiles with
      | none =>
        simp only [watched_object_delete, getOrCreateProfile, hl,
          Bool.not_true, Bool.or_self, Bool.false_eq_true, if_false,
          Bool.not_false, if_true, isStarred]
        rw [lookupStarred_append]
        cases hl2 : lookupStarred u st.profiles with
        | some s => rfl
        | none => by_cases hu : requester = u <;> simp [lookupStarred, hu]
      | some s =>
        have hmem : target ∉ s := by
          rw [isStarred, hl] at hns
          exact of_decide_eq_false hns
        simp only [watched_object_delete, getOrCreateProfile, hl,
          Bool.not_true, Bool.or_self, Bool.false_eq_true, if_false,
          Bool.not_false, if_true, isStarred, unstarTarget]
        by_cases hu : u = requester
        · subst hu
          rw [lookupStarred_updateStarred_self, hl]
          simp only [Option.map_some']
          exact decide_eq_decide.mpr (filter_ne_mem_eq s target t2 hmem)
        · rw [lookupStarred_updateStarred_other _ _ _ _ hu]

/-- C5 witness: in the example base user 1 has no profile yet: starring
target 5 twice leaves one watch entry, and unstarring it first leaves the
watch entry absent as before. -/
theorem star_idempotent_unstar_noop_witness :
    starCount watchStEx 1 5 ≤ 1 ∧
    isStarred watchStEx 1 5 = false ∧
    starCount (watched_object_create true true true 1 5
        (watched_object_create true true true 1 5 watchStEx).2).2 1 5 = 1 ∧
    isStarred (watched_object_delete true true true 1 5 watchStEx).2 1 5
      = isStarred watchStEx 1 5 := by
  refine ⟨by decide, by decide, ?_, ?_⟩
  · exact (star_idempotent_unstar_noop 1 5 watchStEx (by decide)).2.2.1
  · exact ((star_idempotent_unstar_noop 1 5 watchStEx (by decide)).2.2.2
      (by decide)).2 1 5

/-- C5 counterexample: unstarring a target for a principal whose profile
does not exist answers 204 but does not leave the stored state unchanged:
the call inserts an empty profile row for the principal. -/
theorem unstar_creates_profile_counterexample :
    (watched_object_delete true true true 1 5 watchStEx).1
      = WatchOutcome.deleted ∧
    (watched_object_delete true true true 1 5 watchStEx).2 ≠ watchStEx := by
  exact ⟨by decide, by decide⟩

/-- C2: once a review or reply is public, the modify and delete permission
predicates are false for every requesting principal — covering updates and
deletes of the review or reply and deletes of its comments — and the
update paths answer PermissionDenied leaving the record untouched. -/
theorem public_review_immutable (requester : Nat)
    (publishReview publishReply : Review → Review) (p : ReviewPayload)
    (q : ReplyPayload) (review : Review) (h : review.public = true) :
    has_modify_permissions requester review = false ∧
    has_delete_permissions requester review = false ∧
    comment_has_delete_permissions requester review = false ∧
    update_review publishReview requester p review
      = (ReviewOutcome.permissionDenied, review) ∧
    update_reply publishReply requester q review
      = (ReviewOutcome.permissionDenied, review) := by
  have hm : has_modify_permissions requester review = false := by
    simp [has_modify_permissions, h]
  refine ⟨hm, ?_, ?_, ?_, ?_⟩
  · simp [has_delete_permissions, h]
  · simp [comment_has_delete_permissions, h]
  · simp [update_review, hm]
  · simp [update_reply, hm]

/-- C2 witness: the theorem applied to the published review of the example
base, with user 5 (its own author) asking. -/
theorem public_review_immutable_witness :
    publicReviewEx.public = true ∧
    (has_modify_permissions 5 publicReviewEx = false ∧
     update_review id 5 {} publicReviewEx
       = (ReviewOutcome.permissionDenied, publicReviewEx)) :=
  ⟨rfl,
   (public_review_immutable 5 id id {} {} publicReviewEx rfl).1,
   (public_review_immutable 5 id id {} {} publicReviewEx rfl).2.2.2.1⟩

/-- C3: the draft resource's create operation equals its update operation
on every payload and state: the resulting draft and review request states
coincide, and the outcome of create is the outcome of update with a 200
success retagged as 201 and everything else identical. -/
theorem draft_create_is_update_retagged {ρ : Type}
    (publishRR : ρ → Draft → ρ × Draft) (rg ru : String → Option Nat)
    (rrExists canMutate alwaysSave : Bool) (p : DraftPayload)
    (publicRaw : Option String) (d : Draft) (rr : ρ) :
    (draft_resource_create publishRR rg ru rrExists canMutate alwaysSave p
        publicRaw d rr).2
      = (draft_resource_update publishRR rg ru rrExists canMutate alwaysSave p
          publicRaw d rr).2 ∧
    (draft_resource_create publishRR rg ru rrExists canMutate alwaysSave p
        publicRaw d rr).1
      = retagSuccessAsCreated
          (draft_resource_update publishRR rg ru rrExists canMutate alwaysSave
            p publicRaw d rr).1 := by
  unfold draft_resource_create retagSuccessAsCreated
  rcases draft_resource_update publishRR rg ru rrExists canMutate alwaysSave p
    publicRaw d rr with ⟨o, d2, rr2⟩
  cases o with
  | ok c b => by_cases hc : c = 200 <;> simp [hc]
  | seeOther => exact ⟨rfl, rfl⟩
  | invalidFormData fs => exact ⟨rfl, rfl⟩
  | doesNotExist => exact ⟨rfl, rfl⟩
  | permissionDenied => exact ⟨rfl, rfl⟩

/-- C4: evaluating both reply comment creations on a concrete draft reply:
the diff comment reply copies first_line, num_lines, filediff and
interfilediff from the parent and points reply_to at it, while the
screenshot comment reply copies screenshot, x, y, w and h but leaves
reply_to null, because the source never passes it. -/
theorem reply_comment_create_eval :
    reply_diff_comment_create true 5 draftReplyEx (some parentDiffCommentEx)
        "reply text" 99
      = CommentCreateOutcome.created
          { id := 99, filediff := 3, interfilediff := none,
            reply_to := some 7, text := "reply text", first_line := 10,
            num_lines := 3 } ∧
    reply_screenshot_comment_create true 5 draftReplyEx
        (some parentScreenshotCommentEx) "reply text" 99
      = CommentCreateOutcome.created
          { id := 99, screenshot := 4, x := 1, y := 2, w := 3, h := 4,
            text := "reply text", reply_to := none } := by
  exact ⟨rfl, rfl⟩

/-- C8 (amended): a list resource running the generic get_list answers a
truthy counts-only request with 200 and a body holding only the count of
the filtered queryset; the watched-object override, however, ignores the
parameter and returns the serialized items. -/
theorem counts_only_mode {α β : Type} (queryset : List α)
    (fallback : Nat × ListBody β) (serialize : α → β) :
    web_api_get_list true true queryset fallback
      = (200, ListBody.counts queryset.length) ∧
    watched_object_get_list true queryset serialize
      = (200, ListBody.items (queryset.map serialize)) :=
  ⟨rfl, rfl⟩

/-- C8 counterexample: a counts-only request against a watched-object list
resource holding one entry returns the serialized entry, not a body with
only a count, refuting the claim for every list resource. -/
theorem counts_only_watched_counterexample :
    watched_object_get_list (β := Nat) true [10] (fun x => x)
      = (200, ListBody.items [10]) ∧
    (watched_object_get_list (β := Nat) true [10] (fun x => x)).2
      ≠ ListBody.counts 1 := by
  exact ⟨rfl, by decide⟩

/-- C9: an update whose status parameter is absent or names the review
request's current status answers 200 with the state unchanged, and the
answer does not depend on the close and reopen transitions — so no close,
reopen or permission check inside them can run, whatever principal asks. -/
theorem status_noop_update {α : Type} (closeF closeF2 : α → String → Except Unit α)
    (reopenF reopenF2 : α → Except Unit α) (getStatus : α → String)
    (status : Option StatusParam) (rr : α)
    (h : ∀ s, status = some s → getStatus rr = statusCode s) :
    review_request_update closeF reopenF getStatus true status rr
      = (RRUpdateOutcome.ok200, rr) ∧
    review_request_update closeF reopenF getStatus true status rr
      = review_request_update closeF2 reopenF2 getStatus true status rr := by
  cases status with
  | none => exact ⟨rfl, rfl⟩
  | some s =>
    have hs : getStatus rr = statusCode s := h s rfl
    constructor <;> simp [review_request_update, hs]

/-- C9 witness: a pending review request updated with status pending keeps
its state and answers 200, even with transitions that would always raise
PermissionError. -/
theorem status_noop_update_witness :
    review_request_update closeErrEx reopenErrEx id true
        (some StatusParam.pending) "P"
      = (RRUpdateOutcome.ok200, "P") :=
  (status_noop_update closeErrEx closeErrEx reopenErrEx reopenErrEx id
    (some StatusParam.pending) "P"
    (by intro s hs; injection hs with h2; rw [h2.symm]; rfl)).1

/-- C10: the review and reply list querysets keep only public rows, so a
private draft review never appears in any list, and item access to a
non-public review is granted exactly to its author. -/
theorem review_lists_public_item_author (reviews : List Review) (rrId : Nat)
    (brt : Option Nat) (requester : Nat) (r : Review) :
    (∀ x ∈ base_review_get_queryset reviews rrId brt true, x.public = true) ∧
    (r.public = false →
      (has_access_permissions requester r = true ↔ r.user = requester)) := by
  constructor
  · intro x hx
    have hp := (List.mem_filter.mp hx).2
    simp only [Bool.and_eq_true, Bool.or_eq_true, Bool.not_eq_true'] at hp
    rcases hp with ⟨-, hlist⟩
    rcases hlist with hfalse | hpub
    · exact absurd hfalse (by simp)
    · exact hpub
  · intro hp
    simp [has_access_permissions, hp]

/-- C10 witness: in the example base the queryset for review request 1
contains the public review, whose public flag the theorem certifies, and
author 5 is exactly who can access the private review. -/
theorem review_lists_public_item_author_witness :
    publicReviewEx.public = true ∧
    (has_access_permissions 5 privateReviewEx = true ↔
      privateReviewEx.user = 5) :=
  ⟨(review_lists_public_item_author reviewsEx 1 none 5 privateReviewEx).1
      publicReviewEx (by decide),
   (review_lists_public_item_author reviewsEx 1 none 5 privateReviewEx).2 rfl⟩

end ReviewBoard
